import Mathlib

/-
Shallow embedding of the scoring and trend-detection core of the
transfer_depth repository (src/token_jt.py and src/token_depth.py; the
scoring functions `calculate_depth`, `evaluate_liquidity`, `assess_risk`,
`standardize_score` are byte-identical in the two files and are embedded
once).  Python floats are modelled by ℚ; a Python dict field that may be
absent is modelled by `Option`; a Python exception escaping a function is
modelled by `Except PyError`.
-/

/-- Python exceptions that the embedded code can raise. -/
inductive PyError where
  | indexError
  | zeroDivisionError
  | keyError
  | nameError
deriving DecidableEq, Repr

/-- Constant `MAX_LIQUIDITY_SCORE = 100` from the source. -/
def MAX_LIQUIDITY_SCORE : ℚ := 100

/-- Constant `MAX_RISK_SCORE = 50` from the source. -/
def MAX_RISK_SCORE : ℚ := 50

/-- Constant `ORDER_BOOK_DEPTH = 10` from the source. -/
def ORDER_BOOK_DEPTH : Nat := 10

/-- Constant `PRICE_HISTORY_LENGTH = 5` from the source (token_jt.py). -/
def PRICE_HISTORY_LENGTH : Nat := 5

/-- Constant `PRICE_INCREASE_THRESHOLD = 0.1` from the source (token_jt.py). -/
def PRICE_INCREASE_THRESHOLD : ℚ := 1/10

/-- Constant `LIQUIDITY_THRESHOLD = 80` from the source (token_jt.py). -/
def LIQUIDITY_THRESHOLD : ℚ := 80

/-- An order-book dict as the scoring functions receive it: each key may be
absent (`none`).  Bid/ask levels are (price, size) pairs; the numeric
strings of the Python dict are modelled directly as rationals. -/
structure OrderBook where
  bids : Option (List (ℚ × ℚ))
  asks : Option (List (ℚ × ℚ))
  price : Option ℚ
  estimatedPriceImpact : Option ℚ
deriving DecidableEq, Repr

/-- A Python dict is falsy when it has no keys; `not order_book` in
`calculate_depth` is true for `None` (modelled by the `Option` wrapper at
the call site) or for an empty dict, modelled as all fields absent. -/
def OrderBook.isFalsy (ob : OrderBook) : Bool :=
  ob.bids.isNone && ob.asks.isNone && ob.price.isNone && ob.estimatedPriceImpact.isNone

/-- Result of `calculate_depth`: the `(None, None, None)` sentinel for an
invalid order book, or the `(bid_depth, ask_depth, bid_ask_spread)` triple. -/
inductive DepthResult where
  | invalid
  | depths (bid_depth ask_depth bid_ask_spread : ℚ)
deriving DecidableEq, Repr

/-- Embedding of `calculate_depth` (token_jt.py lines 118-131, identical in
token_depth.py lines 98-111).  The guard `not order_book or 'bids' not in
order_book or 'asks' not in order_book` returns the sentinel; otherwise the
top `ORDER_BOOK_DEPTH` levels are summed and `asks[0][0] - bids[0][0]`
raises `IndexError` when either truncated list is empty. -/
def calculate_depth (order_book : Option OrderBook) : Except PyError DepthResult :=
  match order_book with
  | none => Except.ok DepthResult.invalid
  | some ob =>
    if ob.isFalsy then Except.ok DepthResult.invalid
    else
      match ob.bids, ob.asks with
      | some bidsAll, some asksAll =>
        let bids := bidsAll.take ORDER_BOOK_DEPTH
        let asks := asksAll.take ORDER_BOOK_DEPTH
        let bid_depth := (bids.map Prod.snd).sum
        let ask_depth := (asks.map Prod.snd).sum
        match asks.head?, bids.head? with
        | some a0, some b0 =>
            Except.ok (DepthResult.depths bid_depth ask_depth (a0.1 - b0.1))
        | _, _ => Except.error PyError.indexError
      | _, _ => Except.ok DepthResult.invalid

/-- Embedding of `evaluate_liquidity` (token_jt.py lines 133-140, identical
in token_depth.py lines 113-120).  A missing `estimatedPriceImpact` key
returns 0; otherwise `1 / (1 + price_impact)` raises `ZeroDivisionError`
when `price_impact = -1`, and the score is `min(score * 100,
MAX_LIQUIDITY_SCORE)`. -/
def evaluate_liquidity (order_book : OrderBook) : Except PyError ℚ :=
  match order_book.estimatedPriceImpact with
  | none => Except.ok 0
  | some price_impact =>
    if 1 + price_impact = 0 then Except.error PyError.zeroDivisionError
    else
      let liquidity_score := 1 / (1 + price_impact)
      Except.ok (min (liquidity_score * 100) MAX_LIQUIDITY_SCORE)

/-- The `if/elif/else` chain of `assess_risk`; `none` would mean control
fell through the chain to the trailing statement.  Every branch returns, so
`none` is never produced. -/
def assess_risk_chain (price : ℚ) : Option ℚ :=
  if price < 1/100 then some MAX_RISK_SCORE
  else if price < 1 then some (MAX_RISK_SCORE / 2)
  else some (MAX_RISK_SCORE / 4)

/-- Embedding of `assess_risk` (token_jt.py lines 159-166, identical in
token_depth.py lines 139-146).  The trailing
`return min(price_history[0] / 100, MAX_RISK_SCORE)` after the chain
references the undefined name `price_history` and would raise `NameError`
if control ever reached it. -/
def assess_risk (price : ℚ) : Except PyError ℚ :=
  match assess_risk_chain price with
  | some v => Except.ok v
  | none => Except.error PyError.nameError

/-- Embedding of `standardize_score` (token_jt.py lines 168-170, identical
in token_depth.py lines 148-150). -/
def standardize_score (liquidity_score risk_score : ℚ) : ℚ :=
  max 0 (min 100
    ((liquidity_score / MAX_LIQUIDITY_SCORE) * 60 - (risk_score / MAX_RISK_SCORE) * 40))

/-- Spec-side definition of `clamp(lo, hi, x)`, stated from the spec words
for comparison with the source's `max(0, min(100, ...))`. -/
def clamp_spec (lo hi x : ℚ) : ℚ := max lo (min hi x)

/-- The favorable-purchase branch of `main` in token_depth.py (lines
196-199): `if combined_score > 60`. -/
def worth_buying (combined_score : ℚ) : Bool := decide (combined_score > 60)

/-- Embedding of `all(price_history[i] < price_history[i+1] for i in
range(len(price_history)-1))` from token_jt.py line 209. -/
def strictly_increasing : List ℚ → Bool
  | a :: b :: rest => decide (a < b) && strictly_increasing (b :: rest)
  | _ => true

/-- The history update of `monitor_token` (token_jt.py lines 203-205):
append the current price, then `pop(0)` once if the length exceeds
`PRICE_HISTORY_LENGTH`. -/
def trendStep (price_history : List ℚ) (current_price : ℚ) : List ℚ :=
  let appended := price_history ++ [current_price]
  if appended.length > PRICE_HISTORY_LENGTH then appended.drop 1 else appended

/-- Decision of one observation cycle. -/
inductive TrendDecision where
  | NoSignal
  | TrendSignal (percent_increase : ℚ)
deriving DecidableEq, Repr

/-- The trend test of `monitor_token` (token_jt.py lines 207-215), applied
to the updated history.  When the history is full,
`(price_history[-1] - price_history[0]) / price_history[0]` raises
`ZeroDivisionError` if the first entry is 0 (the division is evaluated
before either condition is tested); under the length guard the list is
nonempty, so `headD`/`getLastD` defaults are never used. -/
def trendDecide (price_history : List ℚ) : Except PyError TrendDecision :=
  if price_history.length = PRICE_HISTORY_LENGTH then
    let first := price_history.headD 0
    if first = 0 then Except.error PyError.zeroDivisionError
    else
      let price_increase := (price_history.getLastD 0 - first) / first
      if price_increase > PRICE_INCREASE_THRESHOLD ∧ strictly_increasing price_history = true
      then Except.ok (TrendDecision.TrendSignal price_increase)
      else Except.ok TrendDecision.NoSignal
  else Except.ok TrendDecision.NoSignal

/-- One cycle of the `monitor_token` loop body (token_jt.py lines 194-219).
The fetch result is `none` on failure, in which case the cycle logs,
sleeps and continues with the state unchanged.  On success the price is
read (`order_book['price']`, a `KeyError` if absent), liquidity is scored,
the price is appended to the history, and the trend test decides whether
the alert email is sent (gated by `liquidity_score >= LIQUIDITY_THRESHOLD`).
Returns the new history and whether an alert was emitted. -/
def monitorCycle (price_history : List ℚ) (order_book : Option OrderBook) :
    Except PyError (List ℚ × Bool) :=
  match order_book with
  | none => Except.ok (price_history, false)
  | some ob =>
    match ob.price with
    | none => Except.error PyError.keyError
    | some current_price =>
      match evaluate_liquidity ob with
      | Except.error e => Except.error e
      | Except.ok liquidity_score =>
        let history := trendStep price_history current_price
        match trendDecide history with
        | Except.error e => Except.error e
        | Except.ok TrendDecision.NoSignal => Except.ok (history, false)
        | Except.ok (TrendDecision.TrendSignal _) =>
            Except.ok (history, decide (liquidity_score ≥ LIQUIDITY_THRESHOLD))

/-- The monitor loop run over a finite list of fetch results: each cycle
either raises (propagating out of the loop) or continues with the updated
history. -/
def monitorRun : List ℚ → List (Option OrderBook) → Except PyError (List ℚ)
  | price_history, [] => Except.ok price_history
  | price_history, ob :: rest =>
    match monitorCycle price_history ob with
    | Except.error e => Except.error e
    | Except.ok (h2, _) => monitorRun h2 rest

/-- Claim C6: `standardize_score` equals `clamp(0, 100, (liquidity_score /
100) * 60 - (risk_score / 50) * 40)` for all inputs, the result always lies
in [0, 100], and `standardize_score 100 0 = 60`, `standardize_score 0 50 =
0`, `standardize_score 0 0 = 0`. -/
theorem standardize_score_clamp :
    (∀ l r : ℚ, standardize_score l r = clamp_spec 0 100 ((l / 100) * 60 - (r / 50) * 40)) ∧
    (∀ l r : ℚ, 0 ≤ standardize_score l r ∧ standardize_score l r ≤ 100) ∧
    standardize_score 100 0 = 60 ∧ standardize_score 0 50 = 0 ∧
    standardize_score 0 0 = 0 := by
  refine ⟨fun l r => rfl,
    fun l r => ⟨le_max_left _ _, max_le (by norm_num) (min_le_left _ _)⟩, ?_, ?_, ?_⟩ <;>
    norm_num [standardize_score, MAX_LIQUIDITY_SCORE, MAX_RISK_SCORE]

/-- Claim C9: for liquidity scores in [0, 100] and risk scores in [0, 50],
the composite score is at most 60, so the `combined_score > 60` branch of
the one-shot driver never fires for scores in their nominal ranges. -/
theorem standardize_score_le_60 (l r : ℚ) (_hl0 : 0 ≤ l) (hl : l ≤ 100)
    (hr0 : 0 ≤ r) (_hr : r ≤ 50) :
    standardize_score l r ≤ 60 ∧ worth_buying (standardize_score l r) = false := by
  have hx : (l / MAX_LIQUIDITY_SCORE) * 60 - (r / MAX_RISK_SCORE) * 40 ≤ 60 := by
    unfold MAX_LIQUIDITY_SCORE MAX_RISK_SCORE
    linarith
  have hs : standardize_score l r ≤ 60 := by
    unfold standardize_score
    exact max_le (by norm_num) (le_trans (min_le_right _ _) hx)
  refine ⟨hs, ?_⟩
  simp only [worth_buying, decide_eq_false_iff_not]
  exact not_lt.mpr hs

/-- Witness for C9 at the extreme nominal point (100, 0), where the
composite reaches exactly 60 and the purchase branch still does not fire. -/
theorem standardize_score_le_60_witness :
    standardize_score 100 0 ≤ 60 ∧ worth_buying (standardize_score 100 0) = false :=
  standardize_score_le_60 100 0 (by norm_num) (by norm_num) (by norm_num) (by norm_num)

/-- Counterexample for C4: at price 0 (which is ≤ 0) `assess_risk` returns
the risk score 50 and does not fail with any error. -/
theorem assess_risk_zero_cex :
    assess_risk 0 = Except.ok 50 ∧ ∀ e : PyError, assess_risk 0 ≠ Except.error e := by
  constructor
  · norm_num [assess_risk, assess_risk_chain, MAX_RISK_SCORE]
  · intro e
    norm_num [assess_risk, assess_risk_chain, MAX_RISK_SCORE]
    exact fun h => Except.noConfusion h

/-- Amended C4: for every price ≤ 0, `assess_risk` takes the `price < 0.01`
tier and returns the maximum risk score 50; there is no `InvalidPrice`
failure in the code. -/
theorem assess_risk_nonpositive (p : ℚ) (hp : p ≤ 0) : assess_risk p = Except.ok 50 := by
  have h : p < 1/100 := lt_of_le_of_lt hp (by norm_num)
  unfold assess_risk assess_risk_chain
  rw [if_pos h]
  rfl

/-- Witness for the amended C4 at price -1. -/
theorem assess_risk_nonpositive_witness : assess_risk (-1) = Except.ok 50 :=
  assess_risk_nonpositive (-1) (by norm_num)

/-- Counterexample for C5: at the negative impact -1/2 the code returns the
liquidity score 100 instead of failing with `InvalidImpact`. -/
theorem evaluate_liquidity_negative_impact_cex :
    evaluate_liquidity ⟨none, none, none, some (-(1/2))⟩ = Except.ok 100 ∧
    (-(1/2) : ℚ) < 0 := by
  constructor
  · norm_num [evaluate_liquidity, MAX_LIQUIDITY_SCORE]
  · norm_num

/-- Amended C5: `evaluate_liquidity` returns 0 when
`estimatedPriceImpact` is absent; when the impact is present it returns
`min(100, 100 / (1 + impact))` for every impact other than -1 (negative
impacts included — there is no `InvalidImpact` check), and raises
`ZeroDivisionError` exactly at impact -1. -/
theorem evaluate_liquidity_spec (ob : OrderBook) :
    (ob.estimatedPriceImpact = none → evaluate_liquidity ob = Except.ok 0) ∧
    (∀ i : ℚ, ob.estimatedPriceImpact = some i →
      (i ≠ -1 → evaluate_liquidity ob = Except.ok (min 100 (100 / (1 + i)))) ∧
      (i = -1 → evaluate_liquidity ob = Except.error PyError.zeroDivisionError)) := by
  refine ⟨fun h => by simp [evaluate_liquidity, h], fun i hi => ⟨fun hne => ?_, fun he => ?_⟩⟩
  · have h1 : 1 + i ≠ 0 := fun h => hne (by linarith)
    simp only [evaluate_liquidity, hi, MAX_LIQUIDITY_SCORE]
    rw [if_neg h1]
    have hdiv : (1 : ℚ) / (1 + i) * 100 = 100 / (1 + i) := by
      rw [div_mul_eq_mul_div, one_mul]
    rw [hdiv, min_comm]
  · subst he
    simp only [evaluate_liquidity, hi]
    norm_num

/-- Witness for the amended C5 at impacts absent, 0 and -1. -/
theorem evaluate_liquidity_spec_witness :
    evaluate_liquidity ⟨none, none, none, none⟩ = Except.ok 0 ∧
    evaluate_liquidity ⟨none, none, none, some 0⟩ = Except.ok (min 100 (100 / (1 + 0))) ∧
    evaluate_liquidity ⟨none, none, none, some (-1)⟩ = Except.error PyError.zeroDivisionError :=
  ⟨(evaluate_liquidity_spec _).1 rfl,
   ((evaluate_liquidity_spec _).2 0 rfl).1 (by norm_num),
   ((evaluate_liquidity_spec _).2 (-1) rfl).2 rfl⟩

/-- Claim C10: `assess_risk` is total — it returns exactly one of 50 (price
below 0.01), 25 (price in [0.01, 1)) or 12.5 (price at least 1) on every
price, zero and negative prices included, and the `if/elif/else` chain
never falls through to the trailing statement that references the undefined
name `price_history`. -/
theorem assess_risk_total (p : ℚ) :
    (assess_risk p = Except.ok 50 ∨ assess_risk p = Except.ok 25 ∨
      assess_risk p = Except.ok (25/2)) ∧
    assess_risk_chain p ≠ none ∧
    (p < 1/100 → assess_risk p = Except.ok 50) ∧
    (1/100 ≤ p → p < 1 → assess_risk p = Except.ok 25) ∧
    (1 ≤ p → assess_risk p = Except.ok (25/2)) := by
  by_cases h1 : p < 1/100
  · have hch : assess_risk_chain p = some 50 := by
      unfold assess_risk_chain
      rw [if_pos h1]
      rfl
    have hr : assess_risk p = Except.ok 50 := by
      unfold assess_risk
      rw [hch]
    exact ⟨Or.inl hr, by simp [hch], fun _ => hr,
      fun ha _ => absurd h1 (not_lt.mpr ha),
      fun ha => absurd h1 (not_lt.mpr (by linarith))⟩
  · by_cases h2 : p < 1
    · have hch : assess_risk_chain p = some 25 := by
        unfold assess_risk_chain
        rw [if_neg h1, if_pos h2]
        norm_num [MAX_RISK_SCORE]
      have hr : assess_risk p = Except.ok 25 := by
        unfold assess_risk
        rw [hch]
      exact ⟨Or.inr (Or.inl hr), by simp [hch], fun hlt => absurd hlt h1,
        fun _ _ => hr, fun ha => absurd h2 (not_lt.mpr ha)⟩
    · have hch : assess_risk_chain p = some (25/2) := by
        unfold assess_risk_chain
        rw [if_neg h1, if_neg h2]
        norm_num [MAX_RISK_SCORE]
      have hr : assess_risk p = Except.ok (25/2) := by
        unfold assess_risk
        rw [hch]
      exact ⟨Or.inr (Or.inr hr), by simp [hch], fun hlt => absurd hlt h1,
        fun _ hlt => absurd hlt h2, fun _ => hr⟩

/-- Witness for C10 at the three tier representatives 0.005, 0.5 and 5
(the spec's own step-function test points). -/
theorem assess_risk_total_witness :
    assess_risk (1/200) = Except.ok 50 ∧ assess_risk (1/2) = Except.ok 25 ∧
    assess_risk 5 = Except.ok (25/2) :=
  ⟨(assess_risk_total (1/200)).2.2.1 (by norm_num),
   (assess_risk_total (1/2)).2.2.2.1 (by norm_num) (by norm_num),
   (assess_risk_total 5).2.2.2.2 (by norm_num)⟩

/-- Claim C3 evaluated on the code: an order book whose `bids` list is
present but empty raises `IndexError` from `bids[0][0]` instead of
returning the invalid-order-book sentinel; the sentinel is returned for a
missing book and for a present-but-missing `bids` key. -/
theorem calculate_depth_empty_bids :
    calculate_depth (some ⟨some [], some [(1, 1)], none, none⟩) =
      Except.error PyError.indexError ∧
    calculate_depth (some ⟨some [], some [(1, 1)], none, none⟩) ≠
      Except.ok DepthResult.invalid ∧
    calculate_depth none = Except.ok DepthResult.invalid ∧
    calculate_depth (some ⟨none, some [(1, 1)], some 1, none⟩) =
      Except.ok DepthResult.invalid := by
  have h1 : calculate_depth (some ⟨some [], some [(1, 1)], none, none⟩) =
      Except.error PyError.indexError := rfl
  exact ⟨h1, by rw [h1]; exact fun h => Except.noConfusion h, rfl, rfl⟩

/-- Claim C7: the history update is a fixed-capacity FIFO — if the history
has at most `PRICE_HISTORY_LENGTH` entries before an observation, it still
does afterwards, and when it is exactly full the update drops the oldest
entry, preserves the order of the rest and appends the new price, keeping
the length at `PRICE_HISTORY_LENGTH`. -/
theorem history_fifo (h : List ℚ) (p : ℚ) (hlen : h.length ≤ PRICE_HISTORY_LENGTH) :
    (trendStep h p).length ≤ PRICE_HISTORY_LENGTH ∧
    (h.length = PRICE_HISTORY_LENGTH →
      trendStep h p = h.tail ++ [p] ∧ (trendStep h p).length = PRICE_HISTORY_LENGTH) := by
  unfold PRICE_HISTORY_LENGTH at hlen
  have hlapp : (h ++ [p]).length = h.length + 1 := by simp
  by_cases he : h.length = 5
  · have hgt : (h ++ [p]).length > PRICE_HISTORY_LENGTH := by
      rw [hlapp]
      unfold PRICE_HISTORY_LENGTH
      omega
    have hstep : trendStep h p = (h ++ [p]).drop 1 := by
      simp only [trendStep]
      rw [if_pos hgt]
    have hdrop : (h ++ [p]).drop 1 = h.tail ++ [p] := by
      rw [List.drop_append_of_le_length (by omega), List.drop_one]
    have hlen5 : ((h ++ [p]).drop 1).length = 5 := by
      rw [List.length_drop, hlapp]
      omega
    refine ⟨?_, fun _ => ⟨by rw [hstep, hdrop], ?_⟩⟩ <;>
      rw [hstep, hlen5] <;> rfl
  · have hle : ¬ (h ++ [p]).length > PRICE_HISTORY_LENGTH := by
      rw [hlapp]
      unfold PRICE_HISTORY_LENGTH
      omega
    have hstep : trendStep h p = h ++ [p] := by
      simp only [trendStep]
      rw [if_neg hle]
    refine ⟨?_, fun he' => absurd he' he⟩
    rw [hstep, hlapp]
    unfold PRICE_HISTORY_LENGTH
    omega

/-- Witness for C7: observing a sixth price on the full history
[1, 2, 3, 4, 5] keeps the length at 5 and drops the oldest entry first. -/
theorem history_fifo_witness :
    (trendStep [1, 2, 3, 4, 5] 6).length ≤ PRICE_HISTORY_LENGTH ∧
    trendStep [1, 2, 3, 4, 5] 6 = [2, 3, 4, 5, 6] := by
  have h := history_fifo [1, 2, 3, 4, 5] 6 (by norm_num [PRICE_HISTORY_LENGTH])
  exact ⟨h.1, by rw [(h.2 (by norm_num [PRICE_HISTORY_LENGTH])).1]; rfl⟩

/-- Claim C8: a failed fetch cycle does not raise, leaves the price history
exactly unchanged (nothing appended), emits no alert, and the loop simply
continues with the remaining cycles. -/
theorem fetch_failure_preserves_state (h : List ℚ) (rest : List (Option OrderBook)) :
    monitorCycle h none = Except.ok (h, false) ∧
    monitorRun h (none :: rest) = monitorRun h rest :=
  ⟨rfl, rfl⟩

/-- Amended C2: when the history reaches the full window length with its
first (oldest) entry equal to 0, the trend test raises `ZeroDivisionError`
— the source has no division guard and does not return `NoSignal`. -/
theorem trend_zero_first (h : List ℚ) (hlen : h.length = PRICE_HISTORY_LENGTH)
    (h0 : h.headD 0 = 0) : trendDecide h = Except.error PyError.zeroDivisionError := by
  simp only [trendDecide]
  rw [if_pos hlen, if_pos h0]

/-- Witness for the amended C2 on the concrete full history [0, 1, 2, 3, 4]. -/
theorem trend_zero_first_witness :
    trendDecide [0, 1, 2, 3, 4] = Except.error PyError.zeroDivisionError :=
  trend_zero_first [0, 1, 2, 3, 4] rfl rfl

/-- Counterexample for C2: with the full history [0, 1, 2, 3, 4] (first
entry 0) the trend test yields `ZeroDivisionError`, not `NoSignal`, and the
whole observation cycle that produces this history propagates the error. -/
theorem trend_zero_first_cex :
    trendDecide [0, 1, 2, 3, 4] = Except.error PyError.zeroDivisionError ∧
    trendDecide [0, 1, 2, 3, 4] ≠ Except.ok TrendDecision.NoSignal ∧
    monitorCycle [0, 1, 2, 3] (some ⟨none, none, some 4, some 0⟩) =
      Except.error PyError.zeroDivisionError := by
  have h1 : trendDecide [0, 1, 2, 3, 4] = Except.error PyError.zeroDivisionError := by
    simp only [trendDecide]
    rw [if_pos (show ([0, 1, 2, 3, 4] : List ℚ).length = PRICE_HISTORY_LENGTH from rfl),
      if_pos (show ([0, 1, 2, 3, 4] : List ℚ).headD 0 = 0 from rfl)]
  have hL : evaluate_liquidity ⟨none, none, some 4, some 0⟩ = Except.ok 100 := by
    norm_num [evaluate_liquidity, MAX_LIQUIDITY_SCORE]
  have hs : trendStep [0, 1, 2, 3] 4 = [0, 1, 2, 3, 4] := by
    norm_num [trendStep, PRICE_HISTORY_LENGTH]
  refine ⟨h1, by rw [h1]; exact fun h => Except.noConfusion h, ?_⟩
  simp only [monitorCycle, hL, hs, h1]

/-- Claim C1: on a full price history with a nonzero first entry, the trend
test yields `TrendSignal` carrying the percent increase `(last − first) /
first` exactly when the prices are strictly increasing across every
consecutive pair and that percent increase strictly exceeds the threshold;
in every other case it yields `NoSignal`. -/
theorem trend_signal_iff (h : List ℚ) (hlen : h.length = PRICE_HISTORY_LENGTH)
    (h0 : h.headD 0 ≠ 0) :
    (trendDecide h =
        Except.ok (TrendDecision.TrendSignal ((h.getLastD 0 - h.headD 0) / h.headD 0)) ↔
      strictly_increasing h = true ∧
        (h.getLastD 0 - h.headD 0) / h.headD 0 > PRICE_INCREASE_THRESHOLD) ∧
    (¬(strictly_increasing h = true ∧
        (h.getLastD 0 - h.headD 0) / h.headD 0 > PRICE_INCREASE_THRESHOLD) →
      trendDecide h = Except.ok TrendDecision.NoSignal) := by
  have hd : trendDecide h =
      if (h.getLastD 0 - h.headD 0) / h.headD 0 > PRICE_INCREASE_THRESHOLD ∧
          strictly_increasing h = true
      then Except.ok (TrendDecision.TrendSignal ((h.getLastD 0 - h.headD 0) / h.headD 0))
      else Except.ok TrendDecision.NoSignal := by
    simp only [trendDecide]
    rw [if_pos hlen, if_neg h0]
  by_cases hc : (h.getLastD 0 - h.headD 0) / h.headD 0 > PRICE_INCREASE_THRESHOLD ∧
      strictly_increasing h = true
  · rw [hd, if_pos hc]
    exact ⟨⟨fun _ => ⟨hc.2, hc.1⟩, fun _ => rfl⟩, fun hn => absurd ⟨hc.2, hc.1⟩ hn⟩
  · rw [hd, if_neg hc]
    refine ⟨⟨fun heq => absurd heq (by simp), fun hcond => absurd ⟨hcond.2, hcond.1⟩ hc⟩,
      fun _ => rfl⟩

/-- Witness for C1 at the spec's two examples: the strictly increasing
window [1.0, 1.02, 1.05, 1.09, 1.15] yields a signal with percent increase
0.15, while the non-monotonic window [1.0, 1.2, 1.1, 1.3, 1.4] yields no
signal despite its net 40% gain. -/
theorem trend_signal_iff_witness :
    trendDecide [1, 51/50, 21/20, 109/100, 23/20] =
      Except.ok (TrendDecision.TrendSignal (3/20)) ∧
    trendDecide [1, 6/5, 11/10, 13/10, 7/5] = Except.ok TrendDecision.NoSignal := by
  constructor
  · have h := (trend_signal_iff [1, 51/50, 21/20, 109/100, 23/20] rfl (by norm_num)).1
    have h2 := h.mpr ⟨by simp [strictly_increasing]; norm_num,
      by simp; norm_num [PRICE_INCREASE_THRESHOLD]⟩
    have hval : ((([1, 51/50, 21/20, 109/100, 23/20] : List ℚ).getLastD 0 -
        ([1, 51/50, 21/20, 109/100, 23/20] : List ℚ).headD 0) /
        ([1, 51/50, 21/20, 109/100, 23/20] : List ℚ).headD 0) = 3/20 := by
      simp
      norm_num
    rw [hval] at h2
    exact h2
  · refine (trend_signal_iff [1, 6/5, 11/10, 13/10, 7/5] rfl (by norm_num)).2 ?_
    rintro ⟨hmono, -⟩
    simp [strictly_increasing] at hmono
    norm_num at hmono
